import Mathlib

/-!
Verification development for the snakepit package-validation system.

The definitions below are a shallow embedding of the Python sources:

* `src/snakepit_handler.py` — the lifecycle controller (`SnakepitHandler`):
  the `PackageStatus` enum, the per-package metadata record, and the four
  phase operations `ingest`, `test_collaborate`, `kill_destroy` and
  `conscript_install`, together with the helpers `get_package_status` and
  `list_packages`.  Calls to external processes (sandbox creation, the
  sandboxed test run, the installer, sandbox-directory removal) are
  modelled by explicit boolean environment outcomes passed to each
  operation; an outcome of `false` covers both an unsuccessful external
  command and an exception raised by it, exactly the two paths the Python
  code folds into its failure branches.

* `src/validation_framework.py` — the validation framework
  (`ValidationFramework`): the security-pattern table and `_security_scan`
  (with an executable model of Python's `re.search` for the fixed pattern
  shapes the table uses), `_detect_package_type`, `generate_test_script`
  (with the template texts reproduced verbatim), and the scoring/exit
  protocol of the generated test driver together with `validate_package`'s
  reading of the driver's exit status.
-/

namespace Snakepit

/-! ## Package status — `PackageStatus` enum, snakepit_handler.py lines 30–39 -/

inductive PackageStatus where
  | pending
  | ingesting
  | testing
  | collaborating
  | failed
  | approved
  | conscripted
  | destroyed
deriving DecidableEq, Repr

/-- The `.value` string of each enum member (snakepit_handler.py lines 32–39),
as written by `_save_package_history` into a history entry (line 607). -/
def PackageStatus.value : PackageStatus → String
  | .pending => "pending"
  | .ingesting => "ingesting"
  | .testing => "testing"
  | .collaborating => "collaborating"
  | .failed => "failed"
  | .approved => "approved"
  | .conscripted => "conscripted"
  | .destroyed => "destroyed"

/-! ## Package record — `PackageMetadata`, snakepit_handler.py lines 42–56.

Fields not touched by any property under study (timestamps, `sandbox_id`,
`test_script`, `success_log`, `dependencies`, `validation_results`) are
omitted.  `trace` is a ghost field recording, in order, every value the
`status` field has held; the code itself stores only the current value. -/

structure PkgRec where
  name : String
  version : String
  status : PackageStatus
  /-- Ghost: every status this record's `status` field has held, in order. -/
  trace : List PackageStatus
  error_log : List String
deriving DecidableEq, Repr

/-- A status-field assignment `pkg_meta.status = s`, with the ghost trace
extended. -/
def setStatus (r : PkgRec) (s : PackageStatus) : PkgRec :=
  { r with status := s, trace := r.trace ++ [s] }

/-! ## The active-package map.

`self.active_packages` is a Python dict keyed by package name
(snakepit_handler.py line 69); modelled as an association list with
last-write-wins insertion. -/

abbrev PkgMap := List (String × PkgRec)

def lookupPkg (m : PkgMap) (n : String) : Option PkgRec :=
  match m with
  | [] => none
  | p :: rest => if p.1 = n then some p.2 else lookupPkg rest n

/-- `del m[n]` -/
def removePkg (m : PkgMap) (n : String) : PkgMap :=
  m.filter (fun p => p.1 ≠ n)

/-- `m[n] = r` (insert or overwrite) -/
def insertPkg (m : PkgMap) (n : String) (r : PkgRec) : PkgMap :=
  (n, r) :: removePkg m n

/-- Handler state: the active-package map plus the history sink
(`~/.snakepit/package_history.json`, written by `_save_package_history`).
A history entry is the snapshot of the record at the moment it is saved. -/
structure HandlerState where
  active : PkgMap
  history : List PkgRec
deriving DecidableEq, Repr

def initState : HandlerState := ⟨[], []⟩

/-! ## Phase 1: `ingest` — snakepit_handler.py lines 133–180.

The record is created with status `INGESTING` (line 151) and inserted into
`active_packages` *before* sandbox creation is attempted (line 155).
`sandboxOk` is the outcome of `_create_container_sandbox` /
`_create_venv_sandbox`; `false` also covers an exception escaping the
`try` block (lines 175–178), which likewise ends in status `FAILED`. -/

def ingest (s : HandlerState) (package_name version : String) (sandboxOk : Bool) :
    PkgRec × HandlerState :=
  let pkg_meta : PkgRec :=
    { name := package_name, version := version, status := .ingesting
      trace := [.ingesting], error_log := [] }
  let active₁ := insertPkg s.active package_name pkg_meta
  let pkg_meta :=
    if sandboxOk then
      setStatus pkg_meta .testing
    else
      let r := setStatus pkg_meta .failed
      { r with error_log := r.error_log ++ ["Failed to create sandbox environment"] }
  (pkg_meta, { s with active := insertPkg active₁ package_name pkg_meta })

/-! ## Phase 2: `test_collaborate` — snakepit_handler.py lines 330–370.

No status precondition beyond presence in `active_packages` (line 340).
`testOk` is the outcome of `_test_in_container` / `_test_in_venv`; `false`
also covers an exception during testing (lines 366–370), which likewise
ends in status `FAILED`. -/

def test_collaborate (s : HandlerState) (package_name : String) (testOk : Bool) :
    Bool × HandlerState :=
  match lookupPkg s.active package_name with
  | none => (false, s)
  | some pkg_meta =>
    let pkg_meta := setStatus pkg_meta .collaborating
    let pkg_meta :=
      if testOk then setStatus pkg_meta .approved else setStatus pkg_meta .failed
    (testOk, { s with active := insertPkg s.active package_name pkg_meta })

/-! ## Phase 3: `kill_destroy` — snakepit_handler.py lines 432–478.

`cleanupOk = false` models `shutil.rmtree` (line 463) raising: the
`except` block (lines 476–478) logs and returns `False` without having
run the status update, the history save or the `del` (lines 466–471).
The best-effort container-image removal (lines 451–458) swallows its own
failures and touches no tracked state, so it does not appear here.
A `cleanupOk = true` call sets status `DESTROYED`, archives the record to
history and removes it from the active map. -/

def kill_destroy (s : HandlerState) (package_name : String) (cleanupOk : Bool) :
    Bool × HandlerState :=
  match lookupPkg s.active package_name with
  | none => (false, s)
  | some pkg_meta =>
    if cleanupOk then
      let pkg_meta := setStatus pkg_meta .destroyed
      (true, { active := removePkg s.active package_name
               history := s.history ++ [pkg_meta] })
    else
      (false, s)

/-! ## Phase 4: `conscript_install` — snakepit_handler.py lines 480–565.

Requires status `APPROVED` (line 496).  `success` is `True` when the dry-run
flag is set (lines 507–509) or the installer exits 0 (line 543); on success
the status becomes `CONSCRIPTED` and `kill_destroy` is invoked (line 554)
with its result discarded, and the call returns `True`.  On failure the
status becomes `FAILED` and the call returns `False`.  `installOk = false`
also covers an exception during installation (lines 561–565). -/

def conscript_install (s : HandlerState) (package_name : String)
    (dryRun installOk cleanupOk : Bool) : Bool × HandlerState :=
  match lookupPkg s.active package_name with
  | none => (false, s)
  | some pkg_meta =>
    if pkg_meta.status ≠ .approved then (false, s)
    else
      let success := dryRun || installOk
      if success then
        let pkg_meta := setStatus pkg_meta .conscripted
        let s₁ : HandlerState :=
          { s with active := insertPkg s.active package_name pkg_meta }
        (true, (kill_destroy s₁ package_name cleanupOk).2)
      else
        let pkg_meta := setStatus pkg_meta .failed
        (false, { s with active := insertPkg s.active package_name pkg_meta })

/-- `get_package_status` — snakepit_handler.py lines 660–664. -/
def get_package_status (s : HandlerState) (package_name : String) :
    Option PackageStatus :=
  (lookupPkg s.active package_name).map (fun r => r.status)

/-! ## Interleavings of the four phase operations (for the lifecycle
invariant): one controller call together with its environment outcomes. -/

inductive Op where
  | ingest (name version : String) (sandboxOk : Bool)
  | test (name : String) (testOk : Bool)
  | conscript (name : String) (dryRun installOk cleanupOk : Bool)
  | destroy (name : String) (cleanupOk : Bool)
deriving DecidableEq, Repr

def step (s : HandlerState) : Op → HandlerState
  | .ingest n v ok => (ingest s n v ok).2
  | .test n ok => (test_collaborate s n ok).2
  | .conscript n d i c => (conscript_install s n d i c).2
  | .destroy n c => (kill_destroy s n c).2

def run (s : HandlerState) (ops : List Op) : HandlerState :=
  ops.foldl step s

end Snakepit

namespace Snakepit

/-! ## Association-map lemmas -/

theorem lookupPkg_insert_self (m : PkgMap) (n : String) (r : PkgRec) :
    lookupPkg (insertPkg m n r) n = some r := by
  simp [insertPkg, lookupPkg]

theorem lookupPkg_remove_self (m : PkgMap) (n : String) :
    lookupPkg (removePkg m n) n = none := by
  induction m with
  | nil => rfl
  | cons p rest ih =>
    by_cases h : p.1 = n
    · simpa [removePkg, List.filter, h] using ih
    · simpa [removePkg, List.filter, h, lookupPkg] using ih

theorem lookupPkg_mem {m : PkgMap} {n : String} {r : PkgRec}
    (h : lookupPkg m n = some r) : (n, r) ∈ m := by
  induction m with
  | nil => simp [lookupPkg] at h
  | cons p rest ih =>
    by_cases hp : p.1 = n
    · simp only [lookupPkg, hp, if_pos] at h
      cases h
      cases p
      subst hp
      exact List.mem_cons_self _ _
    · simp only [lookupPkg, hp, if_neg, not_false_iff] at h
      exact List.mem_cons_of_mem _ (ih h)

theorem mem_insertPkg {p : String × PkgRec} {m : PkgMap} {n : String} {r : PkgRec}
    (h : p ∈ insertPkg m n r) : p = (n, r) ∨ p ∈ m := by
  rcases List.mem_cons.mp h with h' | h'
  · exact Or.inl h'
  · exact Or.inr (List.mem_of_mem_filter h')

/-! ## The phase-order invariant (claim about §4.5's state machine).

`phased tr` says: every occurrence of `APPROVED` or `CONSCRIPTED` in the
status trace is preceded, in order, by `TESTING` and `COLLABORATING` —
provided `TESTING` occurs in the trace at all.  The proviso is necessary:
`test_collaborate` checks only membership in `active_packages`, never the
current status, so a record whose ingest failed (status `FAILED`, never
`TESTING`) is still driven `COLLABORATING → APPROVED` when its sandbox
test run reports success. -/

def phased (tr : List PackageStatus) : Prop :=
  ∀ x : PackageStatus, (x = .approved ∨ x = .conscripted) → x ∈ tr →
    PackageStatus.testing ∈ tr →
    List.Sublist [.testing, .collaborating, x] tr

def recInv (r : PkgRec) : Prop :=
  phased r.trace ∧ r.status ∈ r.trace

def stateInv (s : HandlerState) : Prop :=
  (∀ p ∈ s.active, recInv p.2) ∧ (∀ r ∈ s.history, recInv r)

theorem phased_append_neutral {tr : List PackageStatus} {y : PackageStatus}
    (hy : y ≠ .approved ∧ y ≠ .conscripted ∧ y ≠ .testing)
    (h : phased tr) : phased (tr ++ [y]) := by
  intro x hx hmem hT
  have hxy : x ≠ y := by rcases hx with h' | h' <;> subst h' <;> tauto
  have hTy : PackageStatus.testing ≠ y := fun h' => hy.2.2 h'.symm
  have hmem' : x ∈ tr := by
    rcases List.mem_append.mp hmem with h' | h'
    · exact h'
    · exact absurd (List.mem_singleton.mp h') hxy
  have hT' : PackageStatus.testing ∈ tr := by
    rcases List.mem_append.mp hT with h' | h'
    · exact h'
    · exact absurd (List.mem_singleton.mp h') hTy
  exact (h x hx hmem' hT').trans (List.sublist_append_left tr [y])

theorem phased_append_collab {tr : List PackageStatus} {z : PackageStatus}
    (hz : z = .approved ∨ z = .failed)
    (h : phased tr) : phased (tr ++ [.collaborating, z]) := by
  intro x hx hmem hT
  have hxC : x ≠ .collaborating := by
    rcases hx with h' | h' <;> subst h' <;> simp
  have hTz : PackageStatus.testing ∈ tr := by
    rcases List.mem_append.mp hT with h' | h'
    · exact h'
    · exfalso
      rcases hz with h'' | h'' <;> subst h'' <;> simp_all
  rcases List.mem_append.mp hmem with hmem' | hmem'
  · exact (h x hx hmem' hTz).trans (List.sublist_append_left tr _)
  · -- x is in the appended [collaborating, z]: so x = z = approved
    have hxz : x = z := by
      rcases List.mem_cons.mp hmem' with h' | h'
      · exact absurd h' hxC
      · exact List.mem_singleton.mp h'
    subst hxz
    have h1 : List.Sublist [PackageStatus.testing] tr :=
      List.singleton_sublist.mpr hTz
    have h2 : List.Sublist ([PackageStatus.testing] ++ [.collaborating, x])
        (tr ++ [.collaborating, x]) :=
      List.Sublist.append h1 (List.Sublist.refl _)
    simpa using h2

theorem phased_append_conscripted {tr : List PackageStatus}
    (hA : PackageStatus.approved ∈ tr)
    (h : phased tr) : phased (tr ++ [.conscripted]) := by
  intro x hx hmem hT
  have hT' : PackageStatus.testing ∈ tr := by
    rcases List.mem_append.mp hT with h' | h'
    · exact h'
    · simp_all
  rcases List.mem_append.mp hmem with hmem' | hmem'
  · exact (h x hx hmem' hT').trans (List.sublist_append_left tr _)
  · have hx' : x = .conscripted := List.mem_singleton.mp hmem'
    subst hx'
    have h1 : List.Sublist [PackageStatus.testing, .collaborating, .approved] tr :=
      h .approved (Or.inl rfl) hA hT'
    have h2 : List.Sublist [PackageStatus.testing, .collaborating] tr := by
      refine List.Sublist.trans ?_ h1
      exact List.sublist_append_left [PackageStatus.testing, .collaborating] [.approved]
    have h3 : List.Sublist ([PackageStatus.testing, .collaborating] ++ [.conscripted])
        (tr ++ [.conscripted]) :=
      List.Sublist.append h2 (List.Sublist.refl _)
    simpa using h3

end Snakepit

namespace Snakepit

theorem phased_of_no_approved {tr : List PackageStatus}
    (hA : PackageStatus.approved ∉ tr) (hC : PackageStatus.conscripted ∉ tr) :
    phased tr := by
  intro x hx hmem _
  rcases hx with h' | h' <;> subst h'
  · exact absurd hmem hA
  · exact absurd hmem hC

/-! ## Preservation of the invariant by each phase operation -/

theorem stateInv_ingest {s : HandlerState} (n v : String) (ok : Bool)
    (h : stateInv s) : stateInv (ingest s n v ok).2 := by
  obtain ⟨hact, hhist⟩ := h
  refine ⟨?_, hhist⟩
  intro p hp
  simp only [ingest] at hp
  rcases mem_insertPkg hp with h' | h'
  · subst h'
    cases ok <;>
      exact ⟨phased_of_no_approved (by simp [setStatus]) (by simp [setStatus]),
             by simp [setStatus]⟩
  · rcases mem_insertPkg h' with h'' | h''
    · subst h''
      exact ⟨phased_of_no_approved (by simp) (by simp), by simp⟩
    · exact hact p h''

theorem stateInv_test_collaborate {s : HandlerState} (n : String) (ok : Bool)
    (h : stateInv s) : stateInv (test_collaborate s n ok).2 := by
  obtain ⟨hact, hhist⟩ := h
  cases hl : lookupPkg s.active n with
  | none => simpa [test_collaborate, hl] using ⟨hact, hhist⟩
  | some r =>
    have hr : recInv r := hact (n, r) (lookupPkg_mem hl)
    simp only [test_collaborate, hl]
    refine ⟨?_, hhist⟩
    intro p hp
    rcases mem_insertPkg hp with h' | h'
    · subst h'
      cases ok with
      | false =>
        refine ⟨?_, by simp [setStatus]⟩
        have := @phased_append_collab r.trace .failed (Or.inr rfl) hr.1
        simpa [setStatus, List.append_assoc] using this
      | true =>
        refine ⟨?_, by simp [setStatus]⟩
        have := @phased_append_collab r.trace .approved (Or.inl rfl) hr.1
        simpa [setStatus, List.append_assoc] using this
    · exact hact p h'

theorem stateInv_kill_destroy {s : HandlerState} (n : String) (ok : Bool)
    (h : stateInv s) : stateInv (kill_destroy s n ok).2 := by
  obtain ⟨hact, hhist⟩ := h
  cases hl : lookupPkg s.active n with
  | none => simpa [kill_destroy, hl] using ⟨hact, hhist⟩
  | some r =>
    have hr : recInv r := hact (n, r) (lookupPkg_mem hl)
    cases ok with
    | false => simpa [kill_destroy, hl] using ⟨hact, hhist⟩
    | true =>
      constructor
      · intro p hp
        simp only [kill_destroy, hl] at hp
        exact hact p (List.mem_of_mem_filter hp)
      · intro q hq
        simp only [kill_destroy, hl] at hq
        rcases List.mem_append.mp hq with h' | h'
        · exact hhist q h'
        · have hq' : q = setStatus r .destroyed := List.mem_singleton.mp h'
          subst hq'
          refine ⟨?_, by simp [setStatus]⟩
          exact phased_append_neutral (by simp) hr.1

theorem stateInv_conscript_install {s : HandlerState} (n : String)
    (d i c : Bool) (h : stateInv s) : stateInv (conscript_install s n d i c).2 := by
  obtain ⟨hact, hhist⟩ := h
  cases hl : lookupPkg s.active n with
  | none => simpa [conscript_install, hl] using ⟨hact, hhist⟩
  | some r =>
    have hr : recInv r := hact (n, r) (lookupPkg_mem hl)
    by_cases hA : r.status = PackageStatus.approved
    · have hAmem : PackageStatus.approved ∈ r.trace := hA ▸ hr.2
      cases hsucc : d || i with
      | false =>
        simp only [conscript_install, hl, hA, hsucc, ne_eq, not_true_eq_false,
          if_false, Bool.false_eq_true, reduceIte]
        refine ⟨?_, hhist⟩
        intro p hp
        rcases mem_insertPkg hp with h' | h'
        · subst h'
          refine ⟨?_, by simp [setStatus]⟩
          exact phased_append_neutral (by simp) hr.1
        · exact hact p h'
      | true =>
        have hs₁ : stateInv
            { s with active := insertPkg s.active n (setStatus r .conscripted) } := by
          refine ⟨?_, hhist⟩
          intro p hp
          rcases mem_insertPkg hp with h' | h'
          · subst h'
            refine ⟨?_, by simp [setStatus]⟩
            exact phased_append_conscripted hAmem hr.1
          · exact hact p h'
        have := stateInv_kill_destroy (s :=
          { s with active := insertPkg s.active n (setStatus r .conscripted) }) n c hs₁
        simpa [conscript_install, hl, hA, hsucc] using this
    · simpa [conscript_install, hl, hA] using ⟨hact, hhist⟩

theorem stateInv_step {s : HandlerState} (op : Op) (h : stateInv s) :
    stateInv (step s op) := by
  cases op with
  | ingest n v ok => exact stateInv_ingest n v ok h
  | test n ok => exact stateInv_test_collaborate n ok h
  | conscript n d i c => exact stateInv_conscript_install n d i c h
  | destroy n c => exact stateInv_kill_destroy n c h

theorem stateInv_run (ops : List Op) {s : HandlerState} (h : stateInv s) :
    stateInv (run s ops) := by
  induction ops generalizing s with
  | nil => exact h
  | cons op rest ih => exact ih (stateInv_step op h)

theorem stateInv_init : stateInv initState := by
  constructor <;> intro p hp <;> simp [initState] at hp

end Snakepit

namespace Snakepit

/-- C4 (amended): for every interleaving of the four phase operations, and
every record tracked or archived at the end of it, if the record's status
trace contains an `APPROVED` or `CONSCRIPTED` occurrence and the record's
ingest succeeded (equivalently, `TESTING` occurs in its trace — `TESTING`
is assigned only by a successful ingest), then the trace contains
`TESTING` and then `COLLABORATING`, in order, before that occurrence.
The success-of-ingest proviso is forced: `test_collaborate` checks only
presence in `active_packages`, never the current status, so a record whose
ingest failed can still be driven `COLLABORATING → APPROVED`. -/
theorem status_phases_in_order (ops : List Op) (r : PkgRec)
    (hr : (∃ n, lookupPkg (run initState ops).active n = some r) ∨
          r ∈ (run initState ops).history)
    (x : PackageStatus) (hx : x = .approved ∨ x = .conscripted)
    (hmem : x ∈ r.trace) (hT : PackageStatus.testing ∈ r.trace) :
    List.Sublist [.testing, .collaborating, x] r.trace := by
  have hinv := stateInv_run ops stateInv_init
  rcases hr with ⟨n, hn⟩ | hh
  · exact (hinv.1 (n, r) (lookupPkg_mem hn)).1 x hx hmem hT
  · exact (hinv.2 r hh).1 x hx hmem hT

/-- Witness for `status_phases_in_order`: the two-step run
ingest(ok) ; test_collaborate(ok) yields an `APPROVED` record whose trace
contains `TESTING`, and the phase-order sublist holds for it. -/
theorem status_phases_in_order_witness :
    lookupPkg (run initState [.ingest "p" "" true, .test "p" true]).active "p" =
      some ⟨"p", "", .approved,
        [.ingesting, .testing, .collaborating, .approved], []⟩ ∧
    List.Sublist [PackageStatus.testing, .collaborating, .approved]
      [PackageStatus.ingesting, .testing, .collaborating, .approved] :=
  ⟨by decide,
   status_phases_in_order [.ingest "p" "" true, .test "p" true]
     ⟨"p", "", .approved, [.ingesting, .testing, .collaborating, .approved], []⟩
     (Or.inl ⟨"p", by decide⟩) .approved (Or.inl rfl) (by decide) (by decide)⟩

/-- C4 counterexample: after ingest fails (record `FAILED`, never `TESTING`)
and a `test_collaborate` call whose sandbox run reports success, the record's
status is `APPROVED` although its status history never contained `TESTING`:
the claimed phase order does not hold for every interleaving. -/
theorem approved_without_testing_counterexample :
    get_package_status (run initState [.ingest "p" "" false, .test "p" true]) "p" =
      some PackageStatus.approved ∧
    (lookupPkg (run initState [.ingest "p" "" false, .test "p" true]).active "p").map
      PkgRec.trace =
      some [PackageStatus.ingesting, .failed, .collaborating, .approved] ∧
    PackageStatus.testing ∉
      [PackageStatus.ingesting, PackageStatus.failed,
       PackageStatus.collaborating, PackageStatus.approved] := by
  decide

/-- C1 (amended): for every `APPROVED` record, a `conscript_install` whose
installer succeeds or which runs dry sets the record's status to
`CONSCRIPTED`, immediately destroys the sandbox (removing the record from
the active set when the cleanup succeeds), returns true — and the history
entry subsequently written for the record carries the status value
"destroyed", because `kill_destroy` overwrites the status to `DESTROYED`
before archiving.  The trace still records that `CONSCRIPTED` was reached. -/
theorem conscript_success_archives_destroyed (s : HandlerState) (n : String)
    (r : PkgRec) (dryRun installOk : Bool)
    (h : lookupPkg s.active n = some r) (hA : r.status = .approved)
    (hs : (dryRun || installOk) = true) :
    (conscript_install s n dryRun installOk true).1 = true ∧
    lookupPkg (conscript_install s n dryRun installOk true).2.active n = none ∧
    (conscript_install s n dryRun installOk true).2.history =
      s.history ++ [setStatus (setStatus r .conscripted) .destroyed] ∧
    PackageStatus.value (setStatus (setStatus r .conscripted) .destroyed).status =
      "destroyed" ∧
    PackageStatus.conscripted ∈ (setStatus (setStatus r .conscripted) .destroyed).trace := by
  have h1 : lookupPkg (insertPkg s.active n (setStatus r .conscripted)) n =
      some (setStatus r .conscripted) := lookupPkg_insert_self _ _ _
  simp only [conscript_install, h, hA, ne_eq, not_true_eq_false, if_false,
    Bool.false_eq_true, reduceIte, kill_destroy, h1]
  rw [hs]
  refine ⟨rfl, ?_, rfl, rfl, ?_⟩
  · exact lookupPkg_remove_self _ _
  · simp [setStatus]

/-- Witness for `conscript_success_archives_destroyed` at a concrete
approved record reached by ingest ; test_collaborate, in dry-run mode. -/
theorem conscript_success_archives_destroyed_witness :
    lookupPkg (run initState [.ingest "p" "" true, .test "p" true]).active "p" =
      some ⟨"p", "", .approved,
        [.ingesting, .testing, .collaborating, .approved], []⟩ ∧
    (conscript_install (run initState [.ingest "p" "" true, .test "p" true])
        "p" true false true).1 = true ∧
    lookupPkg (conscript_install (run initState [.ingest "p" "" true, .test "p" true])
        "p" true false true).2.active "p" = none ∧
    (conscript_install (run initState [.ingest "p" "" true, .test "p" true])
        "p" true false true).2.history =
      (run initState [.ingest "p" "" true, .test "p" true]).history ++
        [setStatus (setStatus
          ⟨"p", "", .approved, [.ingesting, .testing, .collaborating, .approved], []⟩
          .conscripted) .destroyed] ∧
    PackageStatus.value (setStatus (setStatus
        ⟨"p", "", .approved, [.ingesting, .testing, .collaborating, .approved], []⟩
        .conscripted) .destroyed).status = "destroyed" ∧
    PackageStatus.conscripted ∈ (setStatus (setStatus
        ⟨"p", "", .approved, [.ingesting, .testing, .collaborating, .approved], []⟩
        .conscripted) .destroyed).trace := by
  refine ⟨by decide, ?_⟩
  have := conscript_success_archives_destroyed
    (run initState [.ingest "p" "" true, .test "p" true]) "p"
    ⟨"p", "", .approved, [.ingesting, .testing, .collaborating, .approved], []⟩
    true false (by decide) (by decide) (by decide)
  exact ⟨this.1, this.2.1, this.2.2.1, this.2.2.2.1, this.2.2.2.2⟩

/-- C1 counterexample: in the successful-conscript run
ingest(ok) ; test(ok) ; conscript_install(dry-run, cleanup ok),
`conscript_install` returns true, but the single history entry written for
the record carries the status value "destroyed", not "conscripted". -/
theorem conscript_history_status_counterexample :
    (conscript_install (run initState [.ingest "p" "" true, .test "p" true])
        "p" true false true).1 = true ∧
    ((conscript_install (run initState [.ingest "p" "" true, .test "p" true])
        "p" true false true).2.history.map
      fun r => PackageStatus.value r.status) = ["destroyed"] ∧
    "conscripted" ∉
      ((conscript_install (run initState [.ingest "p" "" true, .test "p" true])
        "p" true false true).2.history.map
        fun r => PackageStatus.value r.status) := by
  decide

/-- C2 (amended): for every record active under a name, `kill_destroy`
archives the record to the history sink with status `DESTROYED` and removes
it from the active set exactly when the sandbox-directory removal does not
raise; when the removal raises, the call logs, returns false, and leaves
the state completely unchanged (record still active, status untouched, no
history entry), so the archival is *not* reached in that case. -/
theorem kill_destroy_archival_iff_cleanup (s : HandlerState) (n : String)
    (r : PkgRec) (h : lookupPkg s.active n = some r) :
    ((kill_destroy s n true).1 = true ∧
     (kill_destroy s n true).2.history = s.history ++ [setStatus r .destroyed] ∧
     PackageStatus.value (setStatus r .destroyed).status = "destroyed" ∧
     lookupPkg (kill_destroy s n true).2.active n = none) ∧
    kill_destroy s n false = (false, s) := by
  constructor
  · simp only [kill_destroy, h]
    exact ⟨rfl, rfl, rfl, lookupPkg_remove_self _ _⟩
  · simp [kill_destroy, h]

/-- Witness for `kill_destroy_archival_iff_cleanup` at the record produced
by one successful ingest. -/
theorem kill_destroy_archival_iff_cleanup_witness :
    lookupPkg (ingest initState "p" "" true).2.active "p" =
      some ⟨"p", "", .testing, [.ingesting, .testing], []⟩ ∧
    (((kill_destroy (ingest initState "p" "" true).2 "p" true).1 = true ∧
      (kill_destroy (ingest initState "p" "" true).2 "p" true).2.history =
        (ingest initState "p" "" true).2.history ++
          [setStatus ⟨"p", "", .testing, [.ingesting, .testing], []⟩ .destroyed] ∧
      PackageStatus.value
        (setStatus ⟨"p", "", .testing, [.ingesting, .testing], []⟩ .destroyed).status =
        "destroyed" ∧
      lookupPkg (kill_destroy (ingest initState "p" "" true).2 "p" true).2.active "p" =
        none) ∧
     kill_destroy (ingest initState "p" "" true).2 "p" false =
       (false, (ingest initState "p" "" true).2)) :=
  ⟨by decide,
   kill_destroy_archival_iff_cleanup (ingest initState "p" "" true).2 "p"
     ⟨"p", "", .testing, [.ingesting, .testing], []⟩ (by decide)⟩

/-- C2 counterexample: with an active record and a sandbox-directory
removal that raises, `kill_destroy` returns false, writes no history entry
and does not remove the record — contradicting "always results in the
record being archived ... and removed ... even when removal of the sandbox
directory raises an exception". -/
theorem kill_destroy_failure_counterexample :
    (kill_destroy (ingest initState "p" "" true).2 "p" false).2.history = [] ∧
    (kill_destroy (ingest initState "p" "" true).2 "p" false).1 = false ∧
    lookupPkg (kill_destroy (ingest initState "p" "" true).2 "p" false).2.active "p" ≠
      none := by
  decide

/-- C9: `kill_destroy` is atomic on the tracking state when it fails: for a
name present in the active set, a false return leaves the whole handler
state unchanged (record still present with its status and the history
untouched), and the record is removed from the active set if and only if
the call returned true. -/
theorem kill_destroy_atomic_on_failure (s : HandlerState) (n : String)
    (r : PkgRec) (cleanupOk : Bool) (h : lookupPkg s.active n = some r) :
    ((kill_destroy s n cleanupOk).1 = false → (kill_destroy s n cleanupOk).2 = s) ∧
    (lookupPkg (kill_destroy s n cleanupOk).2.active n = none ↔
      (kill_destroy s n cleanupOk).1 = true) := by
  cases cleanupOk with
  | false =>
    constructor
    · intro _
      simp [kill_destroy, h]
    · simp [kill_destroy, h]
  | true =>
    constructor
    · intro hf
      simp [kill_destroy, h] at hf
    · simp [kill_destroy, h, lookupPkg_remove_self]

/-- Witness for `kill_destroy_atomic_on_failure` at the record produced by
one successful ingest, with a failing cleanup. -/
theorem kill_destroy_atomic_on_failure_witness :
    lookupPkg (ingest initState "p" "" true).2.active "p" =
      some ⟨"p", "", .testing, [.ingesting, .testing], []⟩ ∧
    (((kill_destroy (ingest initState "p" "" true).2 "p" false).1 = false →
      (kill_destroy (ingest initState "p" "" true).2 "p" false).2 =
        (ingest initState "p" "" true).2) ∧
     (lookupPkg (kill_destroy (ingest initState "p" "" true).2 "p" false).2.active "p" =
        none ↔
      (kill_destroy (ingest initState "p" "" true).2 "p" false).1 = true)) :=
  ⟨by decide,
   kill_destroy_atomic_on_failure (ingest initState "p" "" true).2 "p"
     ⟨"p", "", .testing, [.ingesting, .testing], []⟩ false (by decide)⟩

/-- C5: after a `kill_destroy` call that returned true, a second
`kill_destroy` on the same name finds no active record, is a no-op on the
state and returns false (whatever the second call's environment does);
being a total function of the state it never raises. -/
theorem kill_destroy_idempotent (s : HandlerState) (n : String) (c₁ c₂ : Bool)
    (h : (kill_destroy s n c₁).1 = true) :
    kill_destroy (kill_destroy s n c₁).2 n c₂ = (false, (kill_destroy s n c₁).2) := by
  cases hl : lookupPkg s.active n with
  | none => simp [kill_destroy, hl] at h
  | some r =>
    cases c₁ with
    | false => simp [kill_destroy, hl] at h
    | true =>
      have hnone : lookupPkg (removePkg s.active n) n = none :=
        lookupPkg_remove_self _ _
      simp [kill_destroy, hl, hnone]

/-- Witness for `kill_destroy_idempotent` after one successful ingest and a
successful first destroy. -/
theorem kill_destroy_idempotent_witness :
    (kill_destroy (ingest initState "p" "" true).2 "p" true).1 = true ∧
    kill_destroy (kill_destroy (ingest initState "p" "" true).2 "p" true).2 "p" true =
      (false, (kill_destroy (ingest initState "p" "" true).2 "p" true).2) :=
  ⟨by decide, kill_destroy_idempotent (ingest initState "p" "" true).2 "p" true true
    (by decide)⟩

/-- C8: `ingest` inserts the record into `active_packages` before sandbox
creation is attempted, so after any ingest the name is tracked; after a
failed ingest `get_package_status` returns `FAILED` (not `none`), and a
subsequent `kill_destroy` finds the record and succeeds. -/
theorem ingest_always_tracks (s : HandlerState) (n v : String) (ok : Bool) :
    (get_package_status (ingest s n v ok).2 n).isSome = true ∧
    get_package_status (ingest s n v false).2 n = some .failed ∧
    (kill_destroy (ingest s n v false).2 n true).1 = true := by
  refine ⟨?_, ?_, ?_⟩
  · cases ok <;> simp [ingest, get_package_status, lookupPkg_insert_self]
  · simp [ingest, get_package_status, lookupPkg_insert_self, setStatus]
  · simp [kill_destroy, ingest, lookupPkg_insert_self]

end Snakepit

namespace Snakepit

/-! ## Generated test driver: scoring and exit protocol.

`generate_test_script` (validation_framework.py lines 259–387) embeds a
driver whose `run_validation` accumulates `passed_tests` and `test_count`
and sets `overall_score = passed_tests / test_count` when `test_count > 0`
(lines 344–346, score stays 0.0 otherwise); the `__main__` block exits
with status 0 iff `overall_score >= 0.8` (lines 372–378).
`validate_package` then sets `passed = (result.returncode == 0)`
(line 444).  Scores are modelled as rationals. -/

/-- `overall_score` as computed by the generated driver. -/
def driverScore (passed_tests total_tests : ℕ) : ℚ :=
  if total_tests = 0 then 0 else (passed_tests : ℚ) / (total_tests : ℚ)

/-- The generated driver's exit status: 0 iff `score >= 0.8`. -/
def driverExitCode (passed_tests total_tests : ℕ) : ℕ :=
  if (4 : ℚ) / 5 ≤ driverScore passed_tests total_tests then 0 else 1

/-- `validate_package`'s `passed = (result.returncode == 0)`. -/
def interpreterPassed (returncode : ℕ) : Bool :=
  returncode == 0

/-- C3: `passed` is true iff the score computed by the generated driver as
passed_tests/total_tests is at least 0.8: the driver exits 0 exactly when
score ≥ 0.8 and the interpreter derives `passed` from that exit status;
in particular 4 of 5 passing tests gives score 4/5 = 0.8 and passed true,
while 3 of 5 gives 3/5 = 0.6 and passed false. -/
theorem driver_passed_iff_score (passed_tests total_tests : ℕ) :
    (interpreterPassed (driverExitCode passed_tests total_tests) = true ↔
      (4 : ℚ) / 5 ≤ driverScore passed_tests total_tests) ∧
    driverScore 4 5 = 4 / 5 ∧
    interpreterPassed (driverExitCode 4 5) = true ∧
    driverScore 3 5 = 3 / 5 ∧
    interpreterPassed (driverExitCode 3 5) = false := by
  refine ⟨?_, by norm_num [driverScore], ?_, by norm_num [driverScore], ?_⟩
  · by_cases h : (4 : ℚ) / 5 ≤ driverScore passed_tests total_tests
    · simp [driverExitCode, h, interpreterPassed]
    · simp [driverExitCode, h, interpreterPassed]
  · have h : (4 : ℚ) / 5 ≤ driverScore 4 5 := by norm_num [driverScore]
    simp [driverExitCode, h, interpreterPassed]
  · have h : ¬ (4 : ℚ) / 5 ≤ driverScore 3 5 := by norm_num [driverScore]
    simp [driverExitCode, h, interpreterPassed]

end Snakepit

namespace Snakepit

/-! ## `list_packages` returns a copy — snakepit_handler.py lines 656–658.

`return self.active_packages.copy()` hands the caller a *fresh* dict
object holding the same entries.  To make the object identity visible, a
tiny heap of dict objects is modelled: references are naturals, the
handler owns the reference `activeRef`, and `list_packages` allocates a
new reference initialised with the contents of `activeRef` (the `.copy()`)
and returns it.  A caller may then mutate the returned dict through its
reference. -/

structure DictHeap where
  cells : Nat → Option PkgMap
  next : Nat

def heapGet (h : DictHeap) (ref : Nat) : Option PkgMap := h.cells ref

def heapSet (h : DictHeap) (ref : Nat) (m : PkgMap) : DictHeap :=
  { h with cells := fun x => if x = ref then some m else h.cells x }

/-- `self.active_packages.copy()`: allocate a fresh dict object with the
same contents and return its reference. -/
def list_packages (h : DictHeap) (activeRef : Nat) : Nat × DictHeap :=
  (h.next,
   { cells := fun x => if x = h.next then some ((heapGet h activeRef).getD []) else h.cells x
     next := h.next + 1 })

/-- In-place edits a caller can perform on the mapping returned to it:
`m[k] = v` and `del m[k]`. -/
inductive DictEdit where
  | set (k : String) (v : PkgRec)
  | del (k : String)

def applyEdit (h : DictHeap) (ref : Nat) (e : DictEdit) : DictHeap :=
  match heapGet h ref with
  | none => h
  | some m =>
    match e with
    | .set k v => heapSet h ref (insertPkg m k v)
    | .del k => heapSet h ref (removePkg m k)

def applyEdits (h : DictHeap) (ref : Nat) (es : List DictEdit) : DictHeap :=
  es.foldl (fun h e => applyEdit h ref e) h

theorem heapGet_applyEdit_ne (h : DictHeap) (ref other : Nat) (e : DictEdit)
    (hne : other ≠ ref) : heapGet (applyEdit h ref e) other = heapGet h other := by
  cases hm : h.cells ref with
  | none => simp [applyEdit, heapGet, hm]
  | some m => cases e <;> simp [applyEdit, heapGet, hm, heapSet, hne]

theorem heapGet_applyEdits_ne (es : List DictEdit) (h : DictHeap) (ref other : Nat)
    (hne : other ≠ ref) : heapGet (applyEdits h ref es) other = heapGet h other := by
  induction es generalizing h with
  | nil => rfl
  | cons e rest ih =>
    calc heapGet (applyEdits (applyEdit h ref e) ref rest) other
        = heapGet (applyEdit h ref e) other := ih (applyEdit h ref e)
      _ = heapGet h other := heapGet_applyEdit_ne h ref other e hne

/-- C10: `list_packages` returns a copy of the active-package map: the
fresh reference initially holds the same entries as the handler's own map,
and after any sequence of insertions and deletions performed through the
returned reference, the handler's own mapping is untouched — so every
subsequent handler operation (which reads through `activeRef`) behaves as
if `list_packages` had not been called.  The hypothesis says `activeRef`
is an already-allocated reference, distinct from the fresh one. -/
theorem list_packages_returns_copy (h : DictHeap) (activeRef : Nat)
    (es : List DictEdit) (hvalid : activeRef ≠ h.next) :
    heapGet (list_packages h activeRef).2 (list_packages h activeRef).1 =
      some ((heapGet h activeRef).getD []) ∧
    heapGet (list_packages h activeRef).2 activeRef = heapGet h activeRef ∧
    heapGet (applyEdits (list_packages h activeRef).2 (list_packages h activeRef).1 es)
      activeRef = heapGet h activeRef := by
  refine ⟨by simp [list_packages, heapGet], ?_, ?_⟩
  · simp [list_packages, heapGet, hvalid]
  · calc heapGet (applyEdits (list_packages h activeRef).2 (list_packages h activeRef).1 es)
          activeRef
        = heapGet (list_packages h activeRef).2 activeRef :=
          heapGet_applyEdits_ne es _ _ _ hvalid
      _ = heapGet h activeRef := by simp [list_packages, heapGet, hvalid]

/-- Witness for `list_packages_returns_copy`: a one-cell heap whose active
dict holds one record; the caller deletes that key and inserts another
through the returned reference. -/
theorem list_packages_returns_copy_witness :
    (0 : Nat) ≠ (DictHeap.mk
      (fun x => if x = 0 then some [("p", ⟨"p", "", .testing, [.ingesting, .testing], []⟩)]
                else none) 1).next ∧
    heapGet (applyEdits
        (list_packages (DictHeap.mk
          (fun x => if x = 0 then some [("p", ⟨"p", "", .testing, [.ingesting, .testing], []⟩)]
                    else none) 1) 0).2
        (list_packages (DictHeap.mk
          (fun x => if x = 0 then some [("p", ⟨"p", "", .testing, [.ingesting, .testing], []⟩)]
                    else none) 1) 0).1
        [.del "p", .set "q" ⟨"q", "", .ingesting, [.ingesting], []⟩])
      0 =
    heapGet (DictHeap.mk
      (fun x => if x = 0 then some [("p", ⟨"p", "", .testing, [.ingesting, .testing], []⟩)]
                else none) 1) 0 :=
  ⟨by decide,
   (list_packages_returns_copy
     (DictHeap.mk
       (fun x => if x = 0 then some [("p", ⟨"p", "", .testing, [.ingesting, .testing], []⟩)]
                 else none) 1) 0
     [.del "p", .set "q" ⟨"q", "", .ingesting, [.ingesting], []⟩]
     (by decide)).2.2⟩

end Snakepit

namespace Snakepit

/-! ## Security scan — validation_framework.py `_load_security_patterns`
(lines 64–96) and `_security_scan` (lines 545–567).

Every pattern in the table is a sequence of literal characters (escaped
dots and parentheses included) and the whitespace classes `\s*` / `\s+`,
searched with `re.search(pattern, content, re.IGNORECASE)`.  The matcher
below implements exactly that fragment: `matchToks` matches a token list
against a prefix of the text (greedy whitespace consumption is exact here
because in every table pattern the token after `\s*`/`\s+` is a
non-whitespace literal), and `reSearch` tries every start position, which
is `re.search`'s semantics.  `re.IGNORECASE` is modelled by lowercasing
each text character before comparing with the (all-lowercase) pattern
literals. -/

inductive RTok where
  | lit (c : Char)
  | wsStar
  | wsPlus
deriving DecidableEq, Repr

/-- Python's `\s` on ASCII text. -/
def isPyWS (c : Char) : Bool :=
  c = ' ' || c = '\t' || c = '\n' || c = '\r' || c = '\x0b' || c = '\x0c'

def matchToks : List RTok → List Char → Bool
  | [], _ => true
  | .lit _ :: _, [] => false
  | .lit c :: ts, d :: ds => (d.toLower == c) && matchToks ts ds
  | .wsStar :: ts, ds => matchToks ts (ds.dropWhile isPyWS)
  | .wsPlus :: _, [] => false
  | .wsPlus :: ts, d :: ds => isPyWS d && matchToks ts (ds.dropWhile isPyWS)

/-- `re.search`: try a match at every start position. -/
def reSearch : List RTok → List Char → Bool
  | p, [] => matchToks p []
  | p, c :: cs => matchToks p (c :: cs) || reSearch p cs

/-- Literal pattern characters. -/
def lits (s : String) : List RTok := s.data.map .lit

/-- One entry of the pattern table: the regex source text (as interpolated
into the finding message) and its token form. -/
structure SecPattern where
  src : String
  toks : List RTok
deriving DecidableEq, Repr

def patEvalCall : SecPattern := ⟨"eval\\s*\\(", lits "eval" ++ [.wsStar] ++ lits "("⟩
def patExecCall : SecPattern := ⟨"exec\\s*\\(", lits "exec" ++ [.wsStar] ++ lits "("⟩
def patCompileCall : SecPattern :=
  ⟨"compile\\s*\\(", lits "compile" ++ [.wsStar] ++ lits "("⟩
def patImportCall : SecPattern :=
  ⟨"__import__\\s*\\(", lits "__import__" ++ [.wsStar] ++ lits "("⟩

/-- The `'eval_patterns'` category (lines 90–95). -/
def evalPatternsCategory : String × List SecPattern :=
  ("eval_patterns", [patEvalCall, patExecCall, patCompileCall, patImportCall])

/-- The full `security_patterns` table (lines 66–96), in dict order. -/
def securityPatterns : List (String × List SecPattern) :=
  [("dangerous_imports",
    [⟨"import\\s+os\\.system", lits "import" ++ [.wsPlus] ++ lits "os.system"⟩,
     ⟨"import\\s+subprocess\\.", lits "import" ++ [.wsPlus] ++ lits "subprocess."⟩,
     ⟨"from\\s+subprocess\\s+import",
      lits "from" ++ [.wsPlus] ++ lits "subprocess" ++ [.wsPlus] ++ lits "import"⟩,
     ⟨"import\\s+eval", lits "import" ++ [.wsPlus] ++ lits "eval"⟩,
     ⟨"import\\s+exec", lits "import" ++ [.wsPlus] ++ lits "exec"⟩,
     patImportCall]),
   ("network_access",
    [⟨"import\\s+urllib", lits "import" ++ [.wsPlus] ++ lits "urllib"⟩,
     ⟨"import\\s+requests", lits "import" ++ [.wsPlus] ++ lits "requests"⟩,
     ⟨"import\\s+socket", lits "import" ++ [.wsPlus] ++ lits "socket"⟩,
     ⟨"import\\s+http\\.", lits "import" ++ [.wsPlus] ++ lits "http."⟩,
     ⟨"from\\s+urllib", lits "from" ++ [.wsPlus] ++ lits "urllib"⟩]),
   ("file_system",
    [⟨"open\\s*\\(", lits "open" ++ [.wsStar] ++ lits "("⟩,
     ⟨"file\\s*\\(", lits "file" ++ [.wsStar] ++ lits "("⟩,
     ⟨"import\\s+shutil", lits "import" ++ [.wsPlus] ++ lits "shutil"⟩,
     ⟨"os\\.remove", lits "os.remove"⟩,
     ⟨"os\\.unlink", lits "os.unlink"⟩,
     ⟨"pathlib\\.", lits "pathlib."⟩]),
   evalPatternsCategory]

/-- One category's findings for one file: `_security_scan`'s inner loops
(lines 559–562), producing `f"{category}: {pattern} found in {file_path.name}"`
for every pattern of the category matching the content. -/
def scanCategory (fileName : String) (content : List Char)
    (cat : String × List SecPattern) : List String :=
  cat.2.filterMap fun pat =>
    if reSearch pat.toks content then
      some (cat.1 ++ ": " ++ pat.src ++ " found in " ++ fileName)
    else
      none

/-- `_security_scan`'s findings for one source file: all categories in
table order. -/
def scanFile (fileName : String) (content : List Char) : List String :=
  securityPatterns.flatMap (scanCategory fileName content)

/-- `_security_scan` over the source tree: every `*.py` file contributes
its findings in turn (lines 550–562). -/
def security_scan (files : List (String × List Char)) : List String :=
  files.flatMap fun f => scanFile f.1 f.2

end Snakepit

namespace Snakepit

theorem matchToks_evalCall (post : List Char) :
    matchToks patEvalCall.toks ("eval(".data ++ post) = true := by
  show matchToks patEvalCall.toks ('e' :: 'v' :: 'a' :: 'l' :: '(' :: post) = true
  simp [patEvalCall, lits, matchToks, List.dropWhile, isPyWS]

theorem reSearch_of_matchToks (p : List RTok) (pre rest : List Char)
    (h : matchToks p rest = true) : reSearch p (pre ++ rest) = true := by
  induction pre with
  | nil =>
    cases rest with
    | nil => exact h
    | cons c cs => simp [reSearch, h]
  | cons c cs ih => simp [reSearch, ih]

theorem scanCategory_eq_nil {content : List Char} (fileName : String)
    (cat : String × List SecPattern)
    (h : ∀ p ∈ cat.2, reSearch p.toks content = false) :
    scanCategory fileName content cat = [] := by
  refine List.filterMap_eq_nil_iff.mpr ?_
  intro p hp
  simp [h p hp]

/-- C6 (amended): a source file whose content contains the literal
substring "eval(" always matches the `eval\s*\(` pattern, so the scan
reports it under the `eval_patterns` category keyed to the file's name;
the report is *exactly one* `eval_patterns` finding provided none of the
category's other patterns (`exec\s*\(`, `compile\s*\(`, `__import__\s*\(`)
also matches the content — each additional matching pattern of the
category contributes its own finding.  A file whose content matches none
of the patterns of the four categories contributes no findings at all.
(`scanFile` is the concatenation of `scanCategory` over the four
categories of `securityPatterns`, in table order.) -/
theorem security_scan_precision :
    (∀ (fileName : String) (pre post : List Char),
      reSearch patEvalCall.toks (pre ++ ("eval(".data ++ post)) = true ∧
      (reSearch patExecCall.toks (pre ++ ("eval(".data ++ post)) = false →
       reSearch patCompileCall.toks (pre ++ ("eval(".data ++ post)) = false →
       reSearch patImportCall.toks (pre ++ ("eval(".data ++ post)) = false →
       scanCategory fileName (pre ++ ("eval(".data ++ post)) evalPatternsCategory =
         ["eval_patterns: eval\\s*\\( found in " ++ fileName])) ∧
    (∀ (fileName : String) (content : List Char),
      (securityPatterns.all fun cat => cat.2.all fun p => !reSearch p.toks content) =
        true →
      scanFile fileName content = []) := by
  constructor
  · intro fileName pre post
    have heval : reSearch patEvalCall.toks (pre ++ ("eval(".data ++ post)) = true :=
      reSearch_of_matchToks _ pre _ (matchToks_evalCall post)
    refine ⟨heval, ?_⟩
    intro hexec hcompile himport
    have hmsg : ("eval_patterns" ++ ": " ++ patEvalCall.src ++ " found in ") =
        "eval_patterns: eval\\s*\\( found in " := by decide
    rw [← hmsg]
    simp only [scanCategory, evalPatternsCategory, List.filterMap, heval, hexec,
      hcompile, himport, if_true, if_false, Bool.false_eq_true, reduceIte,
      String.append_assoc]
  · intro fileName content hall
    have h' := List.all_eq_true.mp hall
    refine List.flatMap_eq_nil_iff.mpr ?_
    intro cat hcat
    refine scanCategory_eq_nil fileName cat ?_
    intro p hp
    have := List.all_eq_true.mp (h' cat hcat) p hp
    simpa using this

/-- Witness for `security_scan_precision`: the content "x = eval()" (as
pre ++ "eval(" ++ post) yields exactly the one `eval_patterns` finding for
`m.py`, and the content "y = 1", matching no pattern, yields no findings. -/
theorem security_scan_precision_witness :
    reSearch patExecCall.toks ("x = ".data ++ ("eval(".data ++ ")".data)) = false ∧
    reSearch patCompileCall.toks ("x = ".data ++ ("eval(".data ++ ")".data)) = false ∧
    reSearch patImportCall.toks ("x = ".data ++ ("eval(".data ++ ")".data)) = false ∧
    scanCategory "m.py" ("x = ".data ++ ("eval(".data ++ ")".data))
      evalPatternsCategory = ["eval_patterns: eval\\s*\\( found in m.py"] ∧
    (securityPatterns.all fun cat => cat.2.all fun p => !reSearch p.toks "y = 1".data) =
      true ∧
    scanFile "ok.py" "y = 1".data = [] :=
  ⟨by decide, by decide, by decide,
   by
     have h := (security_scan_precision.1 "m.py" "x = ".data ")".data).2
       (by decide) (by decide) (by decide)
     simpa using h,
   by decide,
   security_scan_precision.2 "ok.py" "y = 1".data (by decide)⟩

/-- C6 counterexample: the file `m.py` with content "x=eval(exec(y))"
contains the literal substring "eval(", yet the scan reports it *twice*
under the `eval_patterns` category (once for `eval\s*\(` and once for
`exec\s*\(`), not exactly once as claimed. -/
theorem security_scan_eval_twice_counterexample :
    scanFile "m.py" "x=eval(exec(y))".data =
      ["eval_patterns: eval\\s*\\( found in m.py",
       "eval_patterns: exec\\s*\\( found in m.py"] ∧
    (scanFile "m.py" "x=eval(exec(y))".data).length ≠ 1 := by
  decide

end Snakepit

namespace Snakepit

/-! ## Test-script generation — validation_framework.py lines 98–404.

`_load_test_templates` (lines 98–215) installs four fixed template texts
into the mutable `self.test_templates` dict; `generate_test_script`
(lines 217–387) assembles the program text from header lines, the
templates selected by validation level and detected package type, any
caller-supplied custom test fragments, and the fixed driver text
(`main_script`, an f-string whose braces are all escaped, hence a
constant).  The template texts below reproduce the source constants
character for character. -/

def basicTemplateText : String :=
  ""
  ++ "\n"
  ++ "def test_basic_import(package_name):\n"
  ++ "    \"\"\"Test basic package import\"\"\"\n"
  ++ "    try:\n"
  ++ "        __import__(package_name)\n"
  ++ "        return True, \"Import successful\"\n"
  ++ "    except ImportError as e:\n"
  ++ "        return False, f\"Import failed: \x7be\x7d\"\n"
  ++ "    except Exception as e:\n"
  ++ "        return False, f\"Unexpected error: \x7be\x7d\"\n"
  ++ ""

def webTemplateText : String :=
  ""
  ++ "\n"
  ++ "def test_web_framework(package_name):\n"
  ++ "    \"\"\"Test web framework functionality\"\"\"\n"
  ++ "    results = \x7b\x7d\n"
  ++ "    \n"
  ++ "    # Basic import\n"
  ++ "    try:\n"
  ++ "        module = __import__(package_name)\n"
  ++ "        results['import'] = True\n"
  ++ "    except Exception as e:\n"
  ++ "        results['import'] = False\n"
  ++ "        results['import_error'] = str(e)\n"
  ++ "        return results\n"
  ++ "        \n"
  ++ "    # Check for common web framework attributes\n"
  ++ "    web_attrs = ['app', 'route', 'run', 'Flask', 'Django', 'FastAPI']\n"
  ++ "    found_attrs = [attr for attr in web_attrs if hasattr(module, attr)]\n"
  ++ "    results['web_attributes'] = found_attrs\n"
  ++ "    \n"
  ++ "    # Try creating basic app (if applicable)\n"
  ++ "    try:\n"
  ++ "        if hasattr(module, 'Flask'):\n"
  ++ "            app = module.Flask(__name__)\n"
  ++ "            results['app_creation'] = True\n"
  ++ "        elif hasattr(module, 'FastAPI'):\n"
  ++ "            app = module.FastAPI()\n"
  ++ "            results['app_creation'] = True\n"
  ++ "        else:\n"
  ++ "            results['app_creation'] = 'not_applicable'\n"
  ++ "    except Exception as e:\n"
  ++ "        results['app_creation_error'] = str(e)\n"
  ++ "        \n"
  ++ "    return results\n"
  ++ ""

def dataTemplateText : String :=
  ""
  ++ "\n"
  ++ "def test_data_package(package_name):\n"
  ++ "    \"\"\"Test data science package functionality\"\"\"\n"
  ++ "    results = \x7b\x7d\n"
  ++ "    \n"
  ++ "    try:\n"
  ++ "        module = __import__(package_name)\n"
  ++ "        results['import'] = True\n"
  ++ "        \n"
  ++ "        # Check for common data science attributes\n"
  ++ "        data_attrs = ['DataFrame', 'array', 'Series', 'numpy', 'pandas']\n"
  ++ "        found_attrs = [attr for attr in data_attrs if hasattr(module, attr)]\n"
  ++ "        results['data_attributes'] = found_attrs\n"
  ++ "        \n"
  ++ "        # Try basic operations\n"
  ++ "        if package_name == 'numpy':\n"
  ++ "            arr = module.array([1, 2, 3])\n"
  ++ "            results['array_creation'] = len(arr) == 3\n"
  ++ "        elif package_name == 'pandas':\n"
  ++ "            df = module.DataFrame(\x7b'a': [1, 2], 'b': [3, 4]\x7d)\n"
  ++ "            results['dataframe_creation'] = len(df) == 2\n"
  ++ "            \n"
  ++ "    except Exception as e:\n"
  ++ "        results['import'] = False\n"
  ++ "        results['error'] = str(e)\n"
  ++ "        \n"
  ++ "    return results\n"
  ++ ""

def securityTemplateText : String :=
  ""
  ++ "\n"
  ++ "def test_security_aspects(package_name, source_files):\n"
  ++ "    \"\"\"Test package for security issues\"\"\"\n"
  ++ "    results = \x7b\n"
  ++ "        'dangerous_patterns': [],\n"
  ++ "        'network_access': [],\n"
  ++ "        'file_system_access': [],\n"
  ++ "        'eval_usage': []\n"
  ++ "    \x7d\n"
  ++ "    \n"
  ++ "    # Scan source files for security patterns\n"
  ++ "    for file_path in source_files:\n"
  ++ "        try:\n"
  ++ "            with open(file_path, 'r', encoding='utf-8', errors='ignore') as f:\n"
  ++ "                content = f.read()\n"
  ++ "                \n"
  ++ "            # Check for dangerous patterns\n"
  ++ "            if 'os.system' in content or 'subprocess' in content:\n"
  ++ "                results['dangerous_patterns'].append(f\"System calls in \x7bfile_path\x7d\")\n"
  ++ "            \n"
  ++ "            if any(pattern in content for pattern in ['urllib', 'requests', 'socket']):\n"
  ++ "                results['network_access'].append(f\"Network access in \x7bfile_path\x7d\")\n"
  ++ "                \n"
  ++ "            if any(pattern in content for pattern in ['open(', 'file(', 'shutil']):\n"
  ++ "                results['file_system_access'].append(f\"File system access in \x7bfile_path\x7d\")\n"
  ++ "                \n"
  ++ "            if any(pattern in content for pattern in ['eval(', 'exec(', '__import__']):\n"
  ++ "                results['eval_usage'].append(f\"Dynamic code execution in \x7bfile_path\x7d\")\n"
  ++ "                \n"
  ++ "        except Exception as e:\n"
  ++ "            results['scan_errors'] = results.get('scan_errors', [])\n"
  ++ "            results['scan_errors'].append(f\"Error scanning \x7bfile_path\x7d: \x7be\x7d\")\n"
  ++ "            \n"
  ++ "    return results\n"
  ++ ""

def mainScriptText : String :=
  ""
  ++ "\n"
  ++ "def run_validation():\n"
  ++ "    \"\"\"Main validation function\"\"\"\n"
  ++ "    results = \x7b\n"
  ++ "        'package_name': PACKAGE_NAME,\n"
  ++ "        'validation_level': VALIDATION_LEVEL,\n"
  ++ "        'start_time': time.time(),\n"
  ++ "        'tests': \x7b\x7d,\n"
  ++ "        'warnings': [],\n"
  ++ "        'errors': [],\n"
  ++ "        'overall_score': 0.0\n"
  ++ "    \x7d\n"
  ++ "    \n"
  ++ "    test_count = 0\n"
  ++ "    passed_tests = 0\n"
  ++ "    \n"
  ++ "    # Basic import test\n"
  ++ "    try:\n"
  ++ "        print(f\"üß™ Testing basic import of \x7bPACKAGE_NAME\x7d\")\n"
  ++ "        passed, message = test_basic_import(PACKAGE_NAME)\n"
  ++ "        results['tests']['basic_import'] = \x7b'passed': passed, 'message': message\x7d\n"
  ++ "        test_count += 1\n"
  ++ "        if passed:\n"
  ++ "            passed_tests += 1\n"
  ++ "            print(f\"‚úÖ Basic import: \x7bmessage\x7d\")\n"
  ++ "        else:\n"
  ++ "            print(f\"‚ùå Basic import: \x7bmessage\x7d\")\n"
  ++ "    except Exception as e:\n"
  ++ "        results['errors'].append(f\"Basic import test error: \x7be\x7d\")\n"
  ++ "        print(f\"‚ùå Basic import test failed: \x7be\x7d\")\n"
  ++ "        \n"
  ++ "    # Additional tests based on validation level\n"
  ++ "    if VALIDATION_LEVEL in ['standard', 'comprehensive']:\n"
  ++ "        try:\n"
  ++ "            module = __import__(PACKAGE_NAME)\n"
  ++ "            \n"
  ++ "            # Version check\n"
  ++ "            version_attrs = ['__version__', 'VERSION', 'version']\n"
  ++ "            version = None\n"
  ++ "            for attr in version_attrs:\n"
  ++ "                if hasattr(module, attr):\n"
  ++ "                    version = getattr(module, attr)\n"
  ++ "                    break\n"
  ++ "                    \n"
  ++ "            if version:\n"
  ++ "                results['tests']['version_info'] = \x7b'passed': True, 'version': str(version)\x7d\n"
  ++ "                print(f\"üìå Package version: \x7bversion\x7d\")\n"
  ++ "            else:\n"
  ++ "                results['warnings'].append(\"No version information found\")\n"
  ++ "                \n"
  ++ "            # Attribute count check\n"
  ++ "            attrs = [attr for attr in dir(module) if not attr.startswith('_')]\n"
  ++ "            results['tests']['attribute_count'] = \x7b'passed': True, 'count': len(attrs)\x7d\n"
  ++ "            print(f\"üì¶ Public attributes: \x7blen(attrs)\x7d\")\n"
  ++ "            \n"
  ++ "            test_count += 2\n"
  ++ "            passed_tests += 2\n"
  ++ "            \n"
  ++ "        except Exception as e:\n"
  ++ "            results['errors'].append(f\"Extended testing error: \x7be\x7d\")\n"
  ++ "            \n"
  ++ "    # Performance test for comprehensive validation\n"
  ++ "    if VALIDATION_LEVEL in ['performance', 'comprehensive']:\n"
  ++ "        try:\n"
  ++ "            print(\"‚ö° Running performance tests\")\n"
  ++ "            start_time = time.time()\n"
  ++ "            \n"
  ++ "            # Import time measurement\n"
  ++ "            import_start = time.time()\n"
  ++ "            __import__(PACKAGE_NAME)\n"
  ++ "            import_time = time.time() - import_start\n"
  ++ "            \n"
  ++ "            results['tests']['import_performance'] = \x7b\n"
  ++ "                'passed': import_time < 5.0,  # Fail if import takes >5s\n"
  ++ "                'import_time': import_time\n"
  ++ "            \x7d\n"
  ++ "            \n"
  ++ "            print(f\"‚è±Ô∏è Import time: \x7bimport_time:.3f\x7ds\")\n"
  ++ "            test_count += 1\n"
  ++ "            if import_time < 5.0:\n"
  ++ "                passed_tests += 1\n"
  ++ "                \n"
  ++ "        except Exception as e:\n"
  ++ "            results['errors'].append(f\"Performance test error: \x7be\x7d\")\n"
  ++ "    \n"
  ++ "    # Calculate overall score\n"
  ++ "    if test_count > 0:\n"
  ++ "        results['overall_score'] = passed_tests / test_count\n"
  ++ "    \n"
  ++ "    results['end_time'] = time.time()\n"
  ++ "    results['duration'] = results['end_time'] - results['start_time']\n"
  ++ "    results['passed_tests'] = passed_tests\n"
  ++ "    results['total_tests'] = test_count\n"
  ++ "    \n"
  ++ "    return results\n"
  ++ "\n"
  ++ "if __name__ == \"__main__\":\n"
  ++ "    try:\n"
  ++ "        print(f\"üêç Starting validation for \x7bPACKAGE_NAME\x7d (\x7bVALIDATION_LEVEL\x7d level)\")\n"
  ++ "        results = run_validation()\n"
  ++ "        \n"
  ++ "        print(f\"\\nüìä Validation Results:\")\n"
  ++ "        print(f\"   Score: \x7bresults['overall_score']:.2f\x7d (\x7bresults['passed_tests']\x7d/\x7bresults['total_tests']\x7d tests passed)\")\n"
  ++ "        print(f\"   Duration: \x7bresults['duration']:.2f\x7ds\")\n"
  ++ "        \n"
  ++ "        if results['warnings']:\n"
  ++ "            print(f\"   Warnings: \x7blen(results['warnings'])\x7d\")\n"
  ++ "            \n"
  ++ "        if results['errors']:\n"
  ++ "            print(f\"   Errors: \x7blen(results['errors'])\x7d\")\n"
  ++ "            for error in results['errors']:\n"
  ++ "                print(f\"     ‚Ä¢ \x7berror\x7d\")\n"
  ++ "        \n"
  ++ "        # Exit with appropriate code\n"
  ++ "        if results['overall_score'] >= 0.8:\n"
  ++ "            print(\"‚úÖ Package validation PASSED\")\n"
  ++ "            sys.exit(0)\n"
  ++ "        else:\n"
  ++ "            print(\"‚ùå Package validation FAILED\")\n"
  ++ "            sys.exit(1)\n"
  ++ "            \n"
  ++ "    except Exception as e:\n"
  ++ "        print(f\"‚ùå Validation script error: \x7be\x7d\")\n"
  ++ "        traceback.print_exc()\n"
  ++ "        sys.exit(1)\n"
  ++ ""

/-- `ValidationLevel` enum — validation_framework.py lines 31–37. -/
inductive ValidationLevel where
  | basic
  | standard
  | comprehensive
  | security
  | performance
deriving DecidableEq, Repr

def ValidationLevel.value : ValidationLevel → String
  | .basic => "basic"
  | .standard => "standard"
  | .comprehensive => "comprehensive"
  | .security => "security"
  | .performance => "performance"

/-- The `self.test_templates` dict state read by `generate_test_script`
(keys 'basic', 'web', 'data', 'security'). -/
structure TestTemplates where
  basic : String
  web : String
  data : String
  security : String
deriving DecidableEq, Repr

/-- The template state installed by `_load_test_templates`. -/
def load_test_templates : TestTemplates :=
  { basic := basicTemplateText, web := webTemplateText
    data := dataTemplateText, security := securityTemplateText }

/-- `_detect_package_type` — validation_framework.py lines 389–404. -/
def detect_package_type (package_name : String) : String :=
  let web_patterns : List String :=
    ["flask", "django", "fastapi", "tornado", "pyramid", "bottle"]
  let data_patterns : List String :=
    ["pandas", "numpy", "scipy", "sklearn", "matplotlib", "seaborn"]
  let ml_patterns : List String :=
    ["tensorflow", "torch", "keras", "xgboost", "lightgbm"]
  let name_lower := package_name.toLower
  if web_patterns.any (fun p => decide (List.IsInfix p.data name_lower.data)) then "web"
  else if data_patterns.any (fun p => decide (List.IsInfix p.data name_lower.data)) then "data"
  else if ml_patterns.any (fun p => decide (List.IsInfix p.data name_lower.data)) then "ml"
  else "general"

/-- The observable external effects a generation run could perform.  The
body of `generate_test_script` (lines 217–387) consists solely of string
and list construction — it contains no filesystem or network call, so its
embedding emits the empty effect list. -/
inductive GenEffect where
  | fsAccess (path : String)
  | netAccess (url : String)
deriving DecidableEq, Repr

/-- `generate_test_script` — validation_framework.py lines 217–387:
returns the generated program text together with the (empty) list of
external effects performed while generating. -/
def generate_test_script (templates : TestTemplates) (package_name : String)
    (validation_level : ValidationLevel) (custom_tests : Option (List String)) :
    String × List GenEffect :=
  let package_type := detect_package_type package_name
  let script_parts : List String :=
    ["#!/usr/bin/env python3",
     "\"\"\"Generated test script for package validation\"\"\"",
     "",
     "import sys",
     "import time",
     "import json",
     "import traceback",
     "from pathlib import Path",
     "",
     "PACKAGE_NAME = '" ++ package_name ++ "'",
     "VALIDATION_LEVEL = '" ++ validation_level.value ++ "'",
     ""]
  let script_parts :=
    if validation_level ∈ [ValidationLevel.basic, ValidationLevel.standard] then
      script_parts ++ [templates.basic]
    else script_parts
  let script_parts :=
    if validation_level ∈ [ValidationLevel.standard, ValidationLevel.comprehensive] then
      if package_type = "web" then script_parts ++ [templates.web]
      else if package_type = "data" then script_parts ++ [templates.data]
      else script_parts
    else script_parts
  let script_parts :=
    if validation_level ∈ [ValidationLevel.security, ValidationLevel.comprehensive] then
      script_parts ++ [templates.security]
    else script_parts
  let script_parts :=
    match custom_tests with
    | some ts => script_parts ++ ts
    | none => script_parts
  let script_parts := script_parts ++ [mainScriptText]
  (String.intercalate "\n" script_parts, [])

/-- C7: test-script generation is a pure, deterministic function of its
inputs: for a fixed template state, two calls with equal package name,
validation level and custom test list produce character-for-character
identical program text, and generation performs no filesystem or network
access (its effect trace is empty). -/
theorem generate_test_script_pure (t₁ t₂ : TestTemplates) (n₁ n₂ : String)
    (l₁ l₂ : ValidationLevel) (c₁ c₂ : Option (List String))
    (ht : t₁ = t₂) (hn : n₁ = n₂) (hl : l₁ = l₂) (hc : c₁ = c₂) :
    (generate_test_script t₁ n₁ l₁ c₁).1.data =
      (generate_test_script t₂ n₂ l₂ c₂).1.data ∧
    (generate_test_script t₁ n₁ l₁ c₁).2 = [] := by
  subst ht hn hl hc
  exact ⟨rfl, rfl⟩

/-- Witness for `generate_test_script_pure` on the framework's own
template state at comprehensive level. -/
theorem generate_test_script_pure_witness :
    (generate_test_script load_test_templates "requests"
        ValidationLevel.comprehensive none).1.data =
      (generate_test_script load_test_templates "requests"
        ValidationLevel.comprehensive none).1.data ∧
    (generate_test_script load_test_templates "requests"
        ValidationLevel.comprehensive none).2 = [] :=
  generate_test_script_pure load_test_templates load_test_templates
    "requests" "requests" ValidationLevel.comprehensive ValidationLevel.comprehensive
    none none rfl rfl rfl rfl

end Snakepit
